import Mathlib

/-!
Shallow embedding of `src/checkForTagRule.ts` (tslint custom rule
"check-for-tag"): a typed lint rule that walks a source file's syntax
tree and reports every identifier usage whose resolved declaration
carries one of a configured set of JSDoc tags.

Modelling conventions:
* The TypeScript AST is embedded as `Tree`: each node has a `NodeData`
  record (kind, identifier text, source position, and the answer the
  tsutils helper `isReassignmentTarget` would give for that node) and a
  list of children, each tagged with the `Slot` it occupies in its
  parent.  A reference comparison such as `parent.name === identifier`
  in the source is rendered as "the child occupies the `name` slot of
  its parent", which is exactly what that identity test checks in a
  parsed tree.
* Since the source reads `node.parent` and `node.parent.parent`, every
  traversal-level function receives the ancestor chain explicitly: a
  `Frame` is the node's slot in its parent together with the parent
  tree, and the remaining list of frames continues upward.  The walker
  maintains this chain, so a frame is always available, matching the
  source where `parent` is never `undefined` for a visited identifier.
* The TypeScript type checker is an oracle record `TypeChecker` of the
  exact capabilities the rule consumes.  `getPropertyOfTypeAt` models
  the composition `tc.getTypeAtLocation(parent.parent).getProperty(text)`
  (the intermediate `ts.Type` is used for nothing else).
* Fallible answers (`undefined` in TypeScript) are `Option`.
  A `getJsDocTags` member that may be absent on old TypeScript versions
  is modelled as an `Option (List _)` field: `none` means the method is
  absent and the rule takes its declaration-scanning fallback path.
* The module-level mutable `options` global is threaded as an explicit
  `opts : List String` parameter; it is written once by `parseOptions`
  and only read afterwards.
-/

namespace CheckForTag

/-- The syntax kinds (`ts.SyntaxKind`) the rule inspects, plus `other`
for every kind it does not distinguish. -/
inductive SyntaxKind where
  | classDeclaration
  | classExpression
  | interfaceDeclaration
  | typeParameter
  | functionExpression
  | functionDeclaration
  | labeledStatement
  | jsxAttribute
  | methodDeclaration
  | methodSignature
  | propertySignature
  | typeAliasDeclaration
  | getAccessor
  | setAccessor
  | enumDeclaration
  | moduleDeclaration
  | variableDeclaration
  | parameter
  | propertyDeclaration
  | enumMember
  | importEqualsDeclaration
  | propertyAssignment
  | bindingElement
  | shorthandPropertyAssignment
  | propertyAccessExpression
  | taggedTemplateExpression
  | callExpression
  | newExpression
  | importDeclaration
  | exportDeclaration
  | exportAssignment
  | identifier
  | variableDeclarationList
  | objectLiteralExpression
  | sourceFile
  | other
  deriving DecidableEq, Repr

/-- The slot a child occupies in its parent node.  `name` is the parent's
`.name` field, `propertyName` its `.propertyName` field, `expression` its
`.expression` field; `otherSlot` is any other position. -/
inductive Slot where
  | name
  | propertyName
  | expression
  | otherSlot
  deriving DecidableEq, Repr

/-- Per-node data: syntax kind, identifier text, source position, and the
value the tsutils helper `isReassignmentTarget` returns for this node
(an input attribute of the parsed tree, computed by the host AST
utilities, which this rule only consumes). -/
structure NodeData where
  kind : SyntaxKind
  text : String
  pos : Nat
  reassign : Bool
  deriving Repr

/-- A syntax tree node: its data and its slot-tagged children. -/
inductive Tree where
  | mk (data : NodeData) (children : List (Slot × Tree))

def Tree.data : Tree → NodeData
  | .mk d _ => d

def Tree.children : Tree → List (Slot × Tree)
  | .mk _ cs => cs

def Tree.kind (t : Tree) : SyntaxKind := t.data.kind

def Tree.text (t : Tree) : String := t.data.text

def Tree.pos (t : Tree) : Nat := t.data.pos

def Tree.reassign (t : Tree) : Bool := t.data.reassign

/-- One step of ancestor context: the slot the node below occupies in its
parent, and the parent tree itself. -/
def Frame : Type := Slot × Tree

/-- A reported rule failure: source position and message. -/
structure Failure where
  pos : Nat
  msg : String

/-- A JSDoc tag as returned by `getJsDocTags` (`ts.JSDocTagInfo`):
name and optional free text. -/
structure JSDocTagInfo where
  name : String
  text : Option String

/-- An AST-level JSDoc tag (`comment.tags` element): the tag name's text
and the optional comment body. -/
structure JSDocTag where
  tagName : String
  comment : Option String

/-- A JSDoc comment attached to a declaration; `tags` is `none` when the
comment has no tag list (`comment.tags === undefined`). -/
structure JSDocComment where
  tags : Option (List JSDocTag)

/-- A declaration node as reachable from a symbol: its kind, its attached
JSDoc comments (what tsutils' `getJsDoc` returns for it), and its parent
chain. -/
inductive Decl where
  | mk (kind : SyntaxKind) (jsDoc : List JSDocComment) (parent : Option Decl)

def Decl.kind : Decl → SyntaxKind
  | .mk k _ _ => k

def Decl.jsDoc : Decl → List JSDocComment
  | .mk _ j _ => j

def Decl.parent : Decl → Option Decl
  | .mk _ _ p => p

/-- A `ts.Symbol` as consumed by the rule: whether its flags include
`SymbolFlags.Alias`, its `getJsDocTags` answer (`none` models the method
being absent on typescript < 2.3.0), and its declaration list. -/
structure Symbol where
  aliasFlag : Bool
  jsDocTags : Option (List JSDocTagInfo)
  declarations : Option (List Decl)

/-- A `ts.Signature` as consumed by the rule: its `getJsDocTags` answer
(`none` models the method being absent on typescript < 2.3.0) and its
optional declaration. -/
structure Signature where
  jsDocTags : Option (List JSDocTagInfo)
  declaration : Option Decl

/-- The type-resolution service (`ts.TypeChecker`) capabilities the rule
consumes, as an oracle record. -/
structure TypeChecker where
  getResolvedSignature : Tree → Option Signature
  getSymbolAtLocation : Tree → Option Symbol
  getAliasedSymbol : Symbol → Symbol
  getPropertySymbolOfDestructuringAssignment : Tree → Option Symbol
  getPropertyOfTypeAt : Option Tree → String → Option Symbol

/-- A rule argument (`string | string[]`) as found in `ruleArguments`. -/
inductive RuleArg where
  | str (s : String)
  | strList (ss : List String)

/-- JavaScript truthiness of `args[1]`: a missing element and the empty
string are falsy; every array (even empty) is truthy. -/
def ruleArgTruthy : Option RuleArg → Bool
  | none => false
  | some (.str s) => decide (s ≠ "")
  | some (.strList _) => true

/-- What the `for..of` loop over `args[1]` pushes: the elements of an
array, or the single characters of a string (JavaScript string
iteration). -/
def ruleArgElements : RuleArg → List String
  | .str s => s.toList.map (fun c => String.mk [c])
  | .strList ss => ss

/-- `parseOptions`: builds the configured tag list from the rule-argument
element at index 1 (index 0 is ignored); when `args[1]` is missing or
falsy the list is empty. -/
def parseOptions (args : List RuleArg) : List String :=
  match args[1]? with
  | some a => if ruleArgTruthy (some a) then ruleArgElements a else []
  | none => []

/-- JavaScript `String.prototype.trim`, modelled over the character
list: strip leading and trailing whitespace. -/
def jsTrim (s : String) : String :=
  String.mk
    (((s.data.dropWhile Char.isWhitespace).reverse.dropWhile
        Char.isWhitespace).reverse)

/-- `Rule.FAILURE_STRING`: the fixed failure-message template. -/
def FAILURE_STRING (name : String) (message : String) : String :=
  "Found disallowed tag at " ++ name ++
    (if message = "" then "." else ": " ++ jsTrim message)

/-- `isDeclaration`: classifies an identifier (given as its parent frame
`fr` and the frames above, since the source reads only `identifier.parent`
and `identifier.parent.parent`) as a declaration site.  `fr.1` is the
slot the identifier occupies in the parent `fr.2`. -/
def isDeclaration (fr : Frame) (rest : List Frame) : Bool :=
  match fr.2.kind with
  | .classDeclaration => true
  | .classExpression => true
  | .interfaceDeclaration => true
  | .typeParameter => true
  | .functionExpression => true
  | .functionDeclaration => true
  | .labeledStatement => true
  | .jsxAttribute => true
  | .methodDeclaration => true
  | .methodSignature => true
  | .propertySignature => true
  | .typeAliasDeclaration => true
  | .getAccessor => true
  | .setAccessor => true
  | .enumDeclaration => true
  | .moduleDeclaration => true
  | .variableDeclaration => decide (fr.1 = Slot.name)
  | .parameter => decide (fr.1 = Slot.name)
  | .propertyDeclaration => decide (fr.1 = Slot.name)
  | .enumMember => decide (fr.1 = Slot.name)
  | .importEqualsDeclaration => decide (fr.1 = Slot.name)
  | .propertyAssignment =>
      -- isReassignmentTarget(identifier.parent.parent as ObjectLiteralExpression);
      -- the grandparent (the enclosing object literal) is the head of `rest`.
      decide (fr.1 = Slot.name) &&
        !(match rest with
          | [] => false
          | gp :: _ => gp.2.reassign)
  | .bindingElement =>
      -- true for `b` in `const {a: b} = obj`: the identifier is the
      -- binding element's name slot and a propertyName slot is present.
      decide (fr.1 = Slot.name) &&
        fr.2.children.any (fun c => decide (c.1 = Slot.propertyName))
  | _ => false

/-- Helper for `getCallExpresion`: the final test against the (possibly
stepped-up) parent: a tagged-template parent always qualifies; a call or
new parent qualifies when the node occupies its `expression` slot. -/
def callParentCheck (slot : Slot) (parent : Tree) : Option Tree :=
  if parent.kind = SyntaxKind.taggedTemplateExpression ∨
      ((parent.kind = SyntaxKind.callExpression ∨
        parent.kind = SyntaxKind.newExpression) ∧ slot = Slot.expression)
  then some parent
  else none

/-- `getCallExpresion` (name kept, spelling included, from the source):
if the node is the `name` of a property-access parent, step up one level
first; then return the parent when it is a tagged template, or a
call/new expression having the node in its `expression` slot. -/
def getCallExpresion (fr : Frame) (rest : List Frame) : Option Tree :=
  if fr.2.kind = SyntaxKind.propertyAccessExpression ∧ fr.1 = Slot.name then
    match rest with
    | [] => none
    | fr2 :: _ => callParentCheck fr2.1 fr2.2
  else callParentCheck fr.1 fr.2

/-- `findUnwantedTagsTag`: first tag whose name is in the configured tag
list; its text, with `undefined` text rendered as the empty string. -/
def findUnwantedTagsTag (opts : List String) : List JSDocTagInfo → Option String
  | [] => none
  | tag :: restTags =>
      if opts.contains tag.name then some (tag.text.getD "")
      else findUnwantedTagsTag opts restTags

/-- Inner loop of `getUnwantedTagsFromDeclaration`: scan one comment's
tag list for a configured tag name. -/
def findTagInTagList (opts : List String) : List JSDocTag → Option String
  | [] => none
  | t :: ts =>
      if opts.contains t.tagName then some (t.comment.getD "")
      else findTagInTagList opts ts

/-- Loop of `getUnwantedTagsFromDeclaration` over the declaration's JSDoc
comments: a comment without a tag list is skipped, and a comment whose
tags contain no configured name falls through to the next comment. -/
def findTagInComments (opts : List String) : List JSDocComment → Option String
  | [] => none
  | c :: cs =>
      match c.tags with
      | none => findTagInComments opts cs
      | some ts =>
          match findTagInTagList opts ts with
          | some r => some r
          | none => findTagInComments opts cs

/-- `getUnwantedTagsFromDeclaration`: scan the declaration node's JSDoc
comments for the first configured tag. -/
def getUnwantedTagsFromDeclaration (opts : List String) (declaration : Decl) :
    Option String :=
  findTagInComments opts declaration.jsDoc

/-- tsutils `getDeclarationOfBindingElement` loop: while the candidate
ancestor is still a binding element, step up two levels.  A missing
ancestor (impossible in a parsed tree, where a binding element always
sits in a binding pattern inside a declaration) stops the walk. -/
def bindingElementAncestorLoop (d : Decl) : Decl :=
  if d.kind = SyntaxKind.bindingElement then
    match d with
    | .mk _ _ (some (.mk _ _ (some q))) => bindingElementAncestorLoop q
    | _ => d
  else d

/-- tsutils `getDeclarationOfBindingElement`: from a binding element,
step to `parent.parent` and keep stepping two levels while that is still
a binding element.  A missing ancestor (impossible in a parsed tree)
leaves the node unchanged. -/
def getDeclarationOfBindingElement (d : Decl) : Decl :=
  match d with
  | .mk _ _ (some (.mk _ _ (some q))) => bindingElementAncestorLoop q
  | _ => d

/-- Loop of `getUnwantedTagsFromDeclarations`: for each declaration,
normalise binding elements to their declaring statement and hop from a
variable declaration to its list and from the list to its statement
(each hop's parent always exists in a parsed tree; a missing parent
leaves the node unchanged), then scan that node's JSDoc. -/
def unwantedTagsFromDeclList (opts : List String) : List Decl → Option String
  | [] => none
  | d :: ds =>
      let d1 := if d.kind = SyntaxKind.bindingElement
                then getDeclarationOfBindingElement d else d
      let d2 := if d1.kind = SyntaxKind.variableDeclaration
                then d1.parent.getD d1 else d1
      let d3 := if d2.kind = SyntaxKind.variableDeclarationList
                then d2.parent.getD d2 else d2
      match getUnwantedTagsFromDeclaration opts d3 with
      | some r => some r
      | none => unwantedTagsFromDeclList opts ds

/-- `getUnwantedTagsFromDeclarations`: `undefined` declarations yield no
match; otherwise scan the list. -/
def getUnwantedTagsFromDeclarations (opts : List String) :
    Option (List Decl) → Option String
  | none => none
  | some ds => unwantedTagsFromDeclList opts ds

/-- `getSymbolUnwantedTags`: use the symbol's `getJsDocTags` when the
method exists, else (typescript < 2.3.0) fall back to scanning the
symbol's declarations. -/
def getSymbolUnwantedTags (opts : List String) (symbol : Symbol) :
    Option String :=
  match symbol.jsDocTags with
  | some tags => findUnwantedTagsTag opts tags
  | none => getUnwantedTagsFromDeclarations opts symbol.declarations

/-- `getSignatureUnwantedTags`: a missing signature yields no match; use
the signature's `getJsDocTags` when the method exists, else fall back to
the signature's declaration (no match when that is also missing). -/
def getSignatureUnwantedTags (opts : List String) :
    Option Signature → Option String
  | none => none
  | some signature =>
      match signature.jsDocTags with
      | some tags => findUnwantedTagsTag opts tags
      | none =>
          match signature.declaration with
          | none => none
          | some d => getUnwantedTagsFromDeclaration opts d

/-- `isFunctionOrMethod`: true when the declaration list is non-empty and
its first element is a method/function declaration or expression or a
method signature. -/
def isFunctionOrMethod : Option (List Decl) → Bool
  | none => false
  | some [] => false
  | some (d :: _) =>
      match d.kind with
      | .methodDeclaration => true
      | .functionDeclaration => true
      | .functionExpression => true
      | .methodSignature => true
      | _ => false

/-- The symbol lookup switch inside `getUnwantedTags` (before alias
unwrapping): a binding-element parent resolves through the property of
the type at `parent.parent`; a property assignment having the identifier
as its name, or a shorthand property assignment whose identifier is a
reassignment target, resolve through the destructuring-assignment
property symbol; everything else through `getSymbolAtLocation`. -/
def rawSymbol (tc : TypeChecker) (node : Tree) (fr : Frame)
    (rest : List Frame) : Option Symbol :=
  if fr.2.kind = SyntaxKind.bindingElement then
    tc.getPropertyOfTypeAt (rest.head?.map (fun g => g.2)) node.text
  else if (fr.2.kind = SyntaxKind.propertyAssignment ∧ fr.1 = Slot.name) ∨
      (fr.2.kind = SyntaxKind.shorthandPropertyAssignment ∧
        fr.1 = Slot.name ∧ node.reassign = true) then
    tc.getPropertySymbolOfDestructuringAssignment node
  else
    tc.getSymbolAtLocation node

/-- Alias unwrapping (lines 171-173 of the source): a symbol carrying the
`Alias` flag is replaced by its aliased symbol. -/
def unwrapAlias (tc : TypeChecker) (s : Symbol) : Symbol :=
  if s.aliasFlag then tc.getAliasedSymbol s else s

/-- The resolved symbol of the symbol path: raw lookup followed by alias
unwrapping. -/
def resolveSymbol (tc : TypeChecker) (node : Tree) (fr : Frame)
    (rest : List Frame) : Option Symbol :=
  (rawSymbol tc node fr rest).map (unwrapAlias tc)

/-- Tail of the symbol path, applied to the resolved symbol: when the
identifier was a call target and the symbol's first declaration is a
function or method, abort with no match; otherwise fetch the symbol's
tags. -/
def symbolTail (opts : List String) (callPresent : Bool) (s : Symbol) :
    Option String :=
  if callPresent && isFunctionOrMethod s.declarations then none
  else getSymbolUnwantedTags opts s

/-- The signature path of `getUnwantedTags`: when the identifier is a
call target, the tags of the resolved signature of that call-like
expression. -/
def sigPathResult (opts : List String) (tc : TypeChecker) (fr : Frame)
    (rest : List Frame) : Option String :=
  match getCallExpresion fr rest with
  | some ce => getSignatureUnwantedTags opts (tc.getResolvedSignature ce)
  | none => none

/-- The symbol path of `getUnwantedTags`: resolve the symbol (with alias
unwrapping) and run the tail; an unresolved symbol yields no match. -/
def symbolPathResult (opts : List String) (tc : TypeChecker) (node : Tree)
    (fr : Frame) (rest : List Frame) : Option String :=
  match resolveSymbol tc node fr rest with
  | none => none
  | some s => symbolTail opts (getCallExpresion fr rest).isSome s

/-- `getUnwantedTags`: the signature path wins when it finds a configured
tag; otherwise the symbol path decides. -/
def getUnwantedTags (opts : List String) (tc : TypeChecker) (node : Tree)
    (fr : Frame) (rest : List Frame) : Option String :=
  match sigPathResult opts tc fr rest with
  | some r => some r
  | none => symbolPathResult opts tc node fr rest

/-- The subtree-pruning test of `walk`: import declarations,
import-equals declarations, export declarations and export assignments
are not descended into. -/
def prunedKind (k : SyntaxKind) : Bool :=
  match k with
  | .importDeclaration => true
  | .importEqualsDeclaration => true
  | .exportDeclaration => true
  | .exportAssignment => true
  | _ => false

mutual

/-- The `cb` callback of `walk`, returning the failures contributed by
visiting this node (and, through recursion, its subtree).  `fr` is the
node's frame (slot in parent, parent), `rest` the frames above. -/
def cbFailures (opts : List String) (tc : TypeChecker) :
    Tree → Frame → List Frame → List Failure
  | Tree.mk d cs, fr, rest =>
    if d.kind = SyntaxKind.identifier then
      if isDeclaration fr rest then []
      else
        match getUnwantedTags opts tc (Tree.mk d cs) fr rest with
        | some t => [⟨d.pos, FAILURE_STRING d.text t⟩]
        | none => []
    else if prunedKind d.kind then []
    else cbFailuresChildren opts tc cs (Tree.mk d cs) (fr :: rest)

/-- Failures contributed by the children of `p` in order
(`ts.forEachChild` recursion). -/
def cbFailuresChildren (opts : List String) (tc : TypeChecker) :
    List (Slot × Tree) → Tree → List Frame → List Failure
  | [], _, _ => []
  | (s, c) :: cs, p, ctx =>
      cbFailures opts tc c (s, p) ctx ++ cbFailuresChildren opts tc cs p ctx

end

mutual

/-- Instrumented traversal mirroring `cb`: the list of identifier nodes
on which the Tag Resolver (`getUnwantedTags`) is invoked during the
visit of this node's subtree.  The set of invocations does not depend on
the checker or the options, only on the tree shape. -/
def cbResolved : Tree → Frame → List Frame → List Tree
  | Tree.mk d cs, fr, rest =>
    if d.kind = SyntaxKind.identifier then
      if isDeclaration fr rest then [] else [Tree.mk d cs]
    else if prunedKind d.kind then []
    else cbResolvedChildren cs (Tree.mk d cs) (fr :: rest)

/-- Resolver invocations contributed by the children of `p` in order. -/
def cbResolvedChildren : List (Slot × Tree) → Tree → List Frame → List Tree
  | [], _, _ => []
  | (s, c) :: cs, p, ctx =>
      cbResolved c (s, p) ctx ++ cbResolvedChildren cs p ctx

end

/-- `walk`: `ts.forEachChild(ctx.sourceFile, cb)` — visit every child of
the source file with the file as parent frame. -/
def walk (opts : List String) (tc : TypeChecker) (sourceFile : Tree) :
    List Failure :=
  cbFailuresChildren opts tc sourceFile.children sourceFile []

/-! ## Helper lemmas -/

/-- With an empty configured tag list, the tag-info match test never
finds anything. -/
theorem findUnwantedTagsTag_nil_opts :
    ∀ tags, findUnwantedTagsTag [] tags = none
  | [] => rfl
  | t :: ts => by
      simpa [findUnwantedTagsTag] using findUnwantedTagsTag_nil_opts ts

/-- With an empty configured tag list, the AST-tag match test never
finds anything. -/
theorem findTagInTagList_nil_opts :
    ∀ ts, findTagInTagList [] ts = none
  | [] => rfl
  | t :: ts => by
      simpa [findTagInTagList] using findTagInTagList_nil_opts ts

/-- With an empty configured tag list, scanning JSDoc comments never
finds anything. -/
theorem findTagInComments_nil_opts :
    ∀ cs, findTagInComments [] cs = none
  | [] => rfl
  | c :: cs => by
      cases hc : c.tags with
      | none => simpa [findTagInComments, hc] using findTagInComments_nil_opts cs
      | some ts =>
          simp [findTagInComments, hc, findTagInTagList_nil_opts ts,
            findTagInComments_nil_opts cs]

theorem getUnwantedTagsFromDeclaration_nil_opts (d : Decl) :
    getUnwantedTagsFromDeclaration [] d = none :=
  findTagInComments_nil_opts d.jsDoc

theorem unwantedTagsFromDeclList_nil_opts :
    ∀ ds, unwantedTagsFromDeclList [] ds = none
  | [] => rfl
  | d :: ds => by
      simp [unwantedTagsFromDeclList, getUnwantedTagsFromDeclaration_nil_opts,
        unwantedTagsFromDeclList_nil_opts ds]

theorem getUnwantedTagsFromDeclarations_nil_opts :
    ∀ ods, getUnwantedTagsFromDeclarations [] ods = none
  | none => rfl
  | some ds => unwantedTagsFromDeclList_nil_opts ds

theorem getSymbolUnwantedTags_nil_opts (s : Symbol) :
    getSymbolUnwantedTags [] s = none := by
  cases h : s.jsDocTags <;>
    simp [getSymbolUnwantedTags, h, findUnwantedTagsTag_nil_opts,
      getUnwantedTagsFromDeclarations_nil_opts]

theorem getSignatureUnwantedTags_nil_opts :
    ∀ os, getSignatureUnwantedTags [] os = none
  | none => rfl
  | some sig => by
      cases h : sig.jsDocTags with
      | some tags => simp [getSignatureUnwantedTags, h, findUnwantedTagsTag_nil_opts]
      | none =>
          cases hd : sig.declaration <;>
            simp [getSignatureUnwantedTags, h, hd,
              getUnwantedTagsFromDeclaration_nil_opts]

/-- With an empty configured tag list, the Tag Resolver returns no match
on every input. -/
theorem getUnwantedTags_nil_opts (tc : TypeChecker) (node : Tree) (fr : Frame)
    (rest : List Frame) : getUnwantedTags [] tc node fr rest = none := by
  have hsig : sigPathResult [] tc fr rest = none := by
    cases hce : getCallExpresion fr rest <;>
      simp [sigPathResult, hce, getSignatureUnwantedTags_nil_opts]
  have hsym : symbolPathResult [] tc node fr rest = none := by
    cases hr : resolveSymbol tc node fr rest with
    | none => simp [symbolPathResult, hr]
    | some s => simp [symbolPathResult, hr, symbolTail, getSymbolUnwantedTags_nil_opts]
  simp [getUnwantedTags, hsig, hsym]

/-- The tag-info match test is first-match search. -/
theorem findUnwantedTagsTag_eq_find (opts : List String) :
    ∀ tags, findUnwantedTagsTag opts tags =
      (tags.find? (fun t => decide (t.name ∈ opts))).map
        (fun t => t.text.getD "")
  | [] => rfl
  | t :: ts => by
      by_cases h : t.name ∈ opts <;>
        simp [findUnwantedTagsTag, h, findUnwantedTagsTag_eq_find opts ts]

/-- The AST-tag match test is first-match search. -/
theorem findTagInTagList_eq_find (opts : List String) :
    ∀ ts, findTagInTagList opts ts =
      (ts.find? (fun t => decide (t.tagName ∈ opts))).map
        (fun t => t.comment.getD "")
  | [] => rfl
  | t :: ts => by
      by_cases h : t.tagName ∈ opts <;>
        simp [findTagInTagList, h, findTagInTagList_eq_find opts ts]

/-- Scanning comments in order then tags in order is first-match search
over the flattened tag sequence. -/
theorem findTagInComments_eq_find (opts : List String) :
    ∀ cs, findTagInComments opts cs =
      ((cs.flatMap (fun c => c.tags.getD [])).find?
          (fun t => decide (t.tagName ∈ opts))).map
        (fun t => t.comment.getD "")
  | [] => rfl
  | c :: cs => by
      cases hc : c.tags with
      | none => simpa [findTagInComments, hc] using findTagInComments_eq_find opts cs
      | some ts =>
          cases hf : ts.find? (fun t => decide (t.tagName ∈ opts)) <;>
            simp [findTagInComments, hc, hf, List.find?_append,
              findTagInTagList_eq_find opts ts, findTagInComments_eq_find opts cs]

/-! ## Claim theorems -/

/-- C5: for every fetched collection of documentation tags, the match
test scans the collection in order and returns the free text of the
first tag whose name is contained (by exact string equality) in the
configured tag list — the empty string when that tag has no text — and
no match when no tag in the collection has a configured name.  This
holds both for the `getJsDocTags` collections (`findUnwantedTagsTag`)
and for the declaration-comment fallback
(`getUnwantedTagsFromDeclaration`, whose comment-then-tag scan is
first-match search over the flattened tag sequence). -/
theorem match_test_first_configured_tag (opts : List String) :
    (∀ tags : List JSDocTagInfo,
      findUnwantedTagsTag opts tags =
        (tags.find? (fun t => decide (t.name ∈ opts))).map
          (fun t => t.text.getD ""))
    ∧ (∀ d : Decl,
      getUnwantedTagsFromDeclaration opts d =
        ((d.jsDoc.flatMap (fun c => c.tags.getD [])).find?
            (fun t => decide (t.tagName ∈ opts))).map
          (fun t => t.comment.getD "")) :=
  ⟨findUnwantedTagsTag_eq_find opts,
    fun d => findTagInComments_eq_find opts d.jsDoc⟩

/-- C6: the failure message equals
`Found disallowed tag at <identifier-text>` followed by `.` when the
match text is empty, and otherwise followed by `: ` and the match text
with surrounding whitespace trimmed. -/
theorem failure_message_format (name message : String) :
    (message = "" →
      FAILURE_STRING name message = "Found disallowed tag at " ++ name ++ ".")
    ∧ (message ≠ "" →
      FAILURE_STRING name message =
        "Found disallowed tag at " ++ name ++ ": " ++ jsTrim message) := by
  constructor
  · intro h
    simp [FAILURE_STRING, h]
  · intro h
    simp [FAILURE_STRING, h, String.append_assoc]

/-- Witness for C6: both message shapes at concrete inputs. -/
theorem failure_message_format_witness :
    FAILURE_STRING "f" "" = "Found disallowed tag at f." ∧
    FAILURE_STRING "g" "  danger  " = "Found disallowed tag at g: danger" := by
  constructor
  · exact (failure_message_format "f" "").1 rfl
  · rw [(failure_message_format "g" "  danger  ").2 (by decide)]
    decide

/-- Modelled from the claim's words (spec section 4.1a, first bullet):
the named-entity parent kinds — class, interface, function, method,
accessor, type alias, enum, namespace/module, label, attribute, type
parameter.  Note: the claim's list does not include property
signatures. -/
def specNamedEntityKind (k : SyntaxKind) : Bool :=
  match k with
  | .classDeclaration | .classExpression => true
  | .interfaceDeclaration => true
  | .functionDeclaration | .functionExpression => true
  | .methodDeclaration | .methodSignature => true
  | .getAccessor | .setAccessor => true
  | .typeAliasDeclaration => true
  | .enumDeclaration => true
  | .moduleDeclaration => true
  | .labeledStatement => true
  | .jsxAttribute => true
  | .typeParameter => true
  | _ => false

/-- Modelled from the claim's words (spec section 4.1a, second bullet):
variable, parameter, field, enum-member and import-alias binding
parents, for which the identifier must occupy the name slot. -/
def specBindingNameKind (k : SyntaxKind) : Bool :=
  match k with
  | .variableDeclaration => true
  | .parameter => true
  | .propertyDeclaration => true
  | .enumMember => true
  | .importEqualsDeclaration => true
  | _ => false

/-- Modelled from the claim's words: the declaration-site classification
exactly as the claim states it. -/
def specDeclarationSite (fr : Frame) (rest : List Frame) : Bool :=
  if specNamedEntityKind fr.2.kind then true
  else if specBindingNameKind fr.2.kind then decide (fr.1 = Slot.name)
  else if fr.2.kind = SyntaxKind.propertyAssignment then
    decide (fr.1 = Slot.name) &&
      !(match rest with
        | [] => false
        | gp :: _ => gp.2.reassign)
  else if fr.2.kind = SyntaxKind.bindingElement then
    decide (fr.1 = Slot.name) &&
      fr.2.children.any (fun c => decide (c.1 = Slot.propertyName))
  else false

/-- The claim's classification with property-signature parents added to
the unconditional named-entity group — the amendment the code forces. -/
def specDeclarationSiteAmended (fr : Frame) (rest : List Frame) : Bool :=
  if specNamedEntityKind fr.2.kind ∨ fr.2.kind = SyntaxKind.propertySignature
  then true
  else if specBindingNameKind fr.2.kind then decide (fr.1 = Slot.name)
  else if fr.2.kind = SyntaxKind.propertyAssignment then
    decide (fr.1 = Slot.name) &&
      !(match rest with
        | [] => false
        | gp :: _ => gp.2.reassign)
  else if fr.2.kind = SyntaxKind.bindingElement then
    decide (fr.1 = Slot.name) &&
      fr.2.children.any (fun c => decide (c.1 = Slot.propertyName))
  else false

/-- A plain identifier leaf node. -/
def identNode (txt : String) (p : Nat) : Tree :=
  Tree.mk ⟨SyntaxKind.identifier, txt, p, false⟩ []

/-- A property-signature parent whose non-name slot holds an
identifier. -/
def propertySigParent : Tree :=
  Tree.mk ⟨SyntaxKind.propertySignature, "", 10, false⟩
    [(Slot.name, identNode "p" 10), (Slot.otherSlot, identNode "x" 11)]

/-- The frame of the identifier `x` occupying a non-name slot of a
property-signature parent. -/
def propertySigFrame : Frame := (Slot.otherSlot, propertySigParent)

/-- Counterexample to C3: for an identifier whose immediate parent is a
property signature (here in a non-name slot), the code classifies it as
a declaration site, while the claim's enumeration — which does not list
property signatures in any group — classifies it as a usage. -/
theorem isDeclaration_spec_counterexample :
    isDeclaration propertySigFrame [] = true ∧
    specDeclarationSite propertySigFrame [] = false :=
  ⟨rfl, rfl⟩

/-- C3 (amended): the declaration-site classifier agrees everywhere with
the claim's classification once property-signature parents are added to
the unconditional named-entity group. -/
theorem isDeclaration_amended_classification (fr : Frame) (rest : List Frame) :
    isDeclaration fr rest = specDeclarationSiteAmended fr rest := by
  rcases fr with ⟨s, t⟩
  rcases t with ⟨⟨k, tx, p, r⟩, cs⟩
  cases k <;> rfl

/-- C2: for every identifier that is a call target (after unwinding one
property-access indirection), the Resolver first consults the resolved
call signature's documentation tags; a configured tag found there is
returned immediately — regardless of every symbol-related capability of
the checker, so the symbol path is not consulted — and the symbol path
decides only when the signature path found nothing or the identifier is
not a call target. -/
theorem signature_path_precedence (opts : List String) (tc : TypeChecker)
    (node : Tree) (fr : Frame) (rest : List Frame) :
    (∀ (ce : Tree) (r : String), getCallExpresion fr rest = some ce →
      getSignatureUnwantedTags opts (tc.getResolvedSignature ce) = some r →
        getUnwantedTags opts tc node fr rest = some r
        ∧ ∀ (gsym : Tree → Option Symbol) (galias : Symbol → Symbol)
            (gdest : Tree → Option Symbol)
            (gprop : Option Tree → String → Option Symbol),
            getUnwantedTags opts
              { getResolvedSignature := tc.getResolvedSignature
                getSymbolAtLocation := gsym
                getAliasedSymbol := galias
                getPropertySymbolOfDestructuringAssignment := gdest
                getPropertyOfTypeAt := gprop } node fr rest = some r)
    ∧ (sigPathResult opts tc fr rest = none →
        getUnwantedTags opts tc node fr rest =
          symbolPathResult opts tc node fr rest) := by
  constructor
  · intro ce r hce hr
    have hsig : sigPathResult opts tc fr rest = some r := by
      simp [sigPathResult, hce, hr]
    refine ⟨by simp [getUnwantedTags, hsig], ?_⟩
    intro gsym galias gdest gprop
    have hsig2 : sigPathResult opts
        { getResolvedSignature := tc.getResolvedSignature
          getSymbolAtLocation := gsym
          getAliasedSymbol := galias
          getPropertySymbolOfDestructuringAssignment := gdest
          getPropertyOfTypeAt := gprop } fr rest = some r := by
      simp [sigPathResult, hce, hr]
    simp [getUnwantedTags, hsig2]
  · intro h
    simp [getUnwantedTags, h]

/-- A signature documented with the configured tag `Bad`. -/
def sigBad : Signature :=
  { jsDocTags := some [{ name := "Bad", text := some " msg " }]
    declaration := none }

/-- A checker that resolves every call to `sigBad` and nothing else. -/
def tcSigOnly : TypeChecker :=
  { getResolvedSignature := fun _ => some sigBad
    getSymbolAtLocation := fun _ => none
    getAliasedSymbol := id
    getPropertySymbolOfDestructuringAssignment := fun _ => none
    getPropertyOfTypeAt := fun _ _ => none }

/-- The identifier `f` as the callee of a call expression. -/
def calleeNode : Tree := identNode "f" 1

/-- The call expression `f()` containing `calleeNode` in its expression
slot. -/
def callNode : Tree :=
  Tree.mk ⟨SyntaxKind.callExpression, "", 0, false⟩
    [(Slot.expression, calleeNode)]

/-- The frame of `calleeNode` inside `callNode`. -/
def calleeFrame : Frame := (Slot.expression, callNode)

/-- Witness for C2: a call whose resolved signature carries the
configured tag is reported with that signature's text. -/
theorem signature_path_precedence_witness :
    getUnwantedTags ["Bad"] tcSigOnly calleeNode calleeFrame [] = some " msg " :=
  ((signature_path_precedence ["Bad"] tcSigOnly calleeNode calleeFrame []).1
    callNode " msg " rfl rfl).1

/-- The kind test of `isFunctionOrMethod`, applied to a declaration's
kind. -/
def fnOrMethodKind (k : SyntaxKind) : Bool :=
  match k with
  | .methodDeclaration => true
  | .functionDeclaration => true
  | .functionExpression => true
  | .methodSignature => true
  | _ => false

/-- A variable declaration with no documentation. -/
def declVarPlain : Decl := Decl.mk SyntaxKind.variableDeclaration [] none

/-- A function declaration with no documentation. -/
def declFunPlain : Decl := Decl.mk SyntaxKind.functionDeclaration [] none

/-- A symbol tagged `Bad` whose declaration list contains a function
declaration, but not in first position. -/
def symVarThenFun : Symbol :=
  { aliasFlag := false
    jsDocTags := some [{ name := "Bad", text := some "boom" }]
    declarations := some [declVarPlain, declFunPlain] }

/-- A checker resolving no signature and mapping every location to
`symVarThenFun`. -/
def tcVarThenFun : TypeChecker :=
  { getResolvedSignature := fun _ => none
    getSymbolAtLocation := fun _ => some symVarThenFun
    getAliasedSymbol := id
    getPropertySymbolOfDestructuringAssignment := fun _ => none
    getPropertyOfTypeAt := fun _ _ => none }

/-- Counterexample to C4: a call-target identifier whose signature path
found nothing, resolving to a symbol that does have a declaration that
is a function — yet the Resolver returns a match, because the code
tests only the first declaration of the list (here a variable
declaration). -/
theorem call_target_any_fn_decl_counterexample :
    (getCallExpresion calleeFrame []).isSome = true
    ∧ sigPathResult ["Bad"] tcVarThenFun calleeFrame [] = none
    ∧ resolveSymbol tcVarThenFun calleeNode calleeFrame [] = some symVarThenFun
    ∧ (symVarThenFun.declarations.getD []).any (fun d => fnOrMethodKind d.kind)
        = true
    ∧ getUnwantedTags ["Bad"] tcVarThenFun calleeNode calleeFrame []
        = some "boom" :=
  ⟨rfl, rfl, rfl, rfl, rfl⟩

/-- C4 (amended): for every identifier that is a call target whose
signature path found no configured tag, if the first declaration of the
symbol resolved on the symbol path is a function or method, the
Resolver returns no match. -/
theorem call_target_first_decl_fn_aborts (opts : List String)
    (tc : TypeChecker) (node : Tree) (fr : Frame) (rest : List Frame)
    (s : Symbol)
    (hc : (getCallExpresion fr rest).isSome = true)
    (hs : sigPathResult opts tc fr rest = none)
    (hr : resolveSymbol tc node fr rest = some s)
    (hf : isFunctionOrMethod s.declarations = true) :
    getUnwantedTags opts tc node fr rest = none := by
  simp [getUnwantedTags, hs, symbolPathResult, hr, symbolTail, hc, hf]

/-- A symbol tagged `Bad` whose first declaration is a function
declaration. -/
def symFunFirst : Symbol :=
  { aliasFlag := false
    jsDocTags := some [{ name := "Bad", text := some "boom" }]
    declarations := some [declFunPlain] }

/-- A checker resolving no signature and mapping every location to
`symFunFirst`. -/
def tcFunFirst : TypeChecker :=
  { getResolvedSignature := fun _ => none
    getSymbolAtLocation := fun _ => some symFunFirst
    getAliasedSymbol := id
    getPropertySymbolOfDestructuringAssignment := fun _ => none
    getPropertyOfTypeAt := fun _ _ => none }

/-- Witness for amended C4: the abort fires when the first declaration
is a function, even though the symbol's tags contain the configured
tag. -/
theorem call_target_first_decl_fn_aborts_witness :
    getUnwantedTags ["Bad"] tcFunFirst calleeNode calleeFrame [] = none :=
  call_target_first_decl_fn_aborts ["Bad"] tcFunFirst calleeNode calleeFrame []
    symFunFirst rfl rfl rfl rfl

/-- C7: whenever the raw symbol lookup yields a symbol carrying the
alias flag, the symbol path continues with the aliased symbol: the
resolved symbol is the unwrapped one, and the Resolver's answer is the
symbol-path tail — function-or-method abort check and tag fetch —
applied to the aliased symbol (after the signature path, which is
unaffected). -/
theorem alias_unwrap_precedes_checks (opts : List String) (tc : TypeChecker)
    (node : Tree) (fr : Frame) (rest : List Frame) (s : Symbol)
    (hraw : rawSymbol tc node fr rest = some s)
    (hal : s.aliasFlag = true) :
    resolveSymbol tc node fr rest = some (tc.getAliasedSymbol s)
    ∧ getUnwantedTags opts tc node fr rest =
        (match sigPathResult opts tc fr rest with
         | some r => some r
         | none =>
             symbolTail opts (getCallExpresion fr rest).isSome
               (tc.getAliasedSymbol s)) := by
  have h1 : resolveSymbol tc node fr rest = some (tc.getAliasedSymbol s) := by
    simp [resolveSymbol, hraw, unwrapAlias, hal]
  refine ⟨h1, ?_⟩
  cases hsp : sigPathResult opts tc fr rest with
  | some r => simp [getUnwantedTags, hsp]
  | none => simp [getUnwantedTags, hsp, symbolPathResult, h1]

/-- An alias symbol (an import/re-export binding) with no documentation
of its own. -/
def symAliasBinding : Symbol :=
  { aliasFlag := true
    jsDocTags := some []
    declarations := none }

/-- The ultimate target of the alias, tagged `Bad`. -/
def symAliasTarget : Symbol :=
  { aliasFlag := false
    jsDocTags := some [{ name := "Bad", text := some "aliased" }]
    declarations := none }

/-- A checker mapping every location to the alias binding and unwrapping
every alias to `symAliasTarget`. -/
def tcAlias : TypeChecker :=
  { getResolvedSignature := fun _ => none
    getSymbolAtLocation := fun _ => some symAliasBinding
    getAliasedSymbol := fun _ => symAliasTarget
    getPropertySymbolOfDestructuringAssignment := fun _ => none
    getPropertyOfTypeAt := fun _ _ => none }

/-- An undistinguished parent node holding an identifier usage. -/
def plainParent : Tree :=
  Tree.mk ⟨SyntaxKind.other, "", 20, false⟩ [(Slot.otherSlot, identNode "u" 21)]

/-- The frame of a plain identifier usage under `plainParent`. -/
def plainFrame : Frame := (Slot.otherSlot, plainParent)

/-- The plain identifier usage node `u`. -/
def plainUsage : Tree := identNode "u" 21

/-- Witness for C7: an aliased import binding is reported with its
ultimate target's tag text. -/
theorem alias_unwrap_precedes_checks_witness :
    resolveSymbol tcAlias plainUsage plainFrame [] = some symAliasTarget
    ∧ getUnwantedTags ["Bad"] tcAlias plainUsage plainFrame []
        = some "aliased" := by
  have h := alias_unwrap_precedes_checks ["Bad"] tcAlias plainUsage plainFrame
    [] symAliasBinding rfl rfl
  exact ⟨h.1, h.2.trans rfl⟩

/-- A checker every one of whose lookups fails. -/
def tcNothing : TypeChecker :=
  { getResolvedSignature := fun _ => none
    getSymbolAtLocation := fun _ => none
    getAliasedSymbol := id
    getPropertySymbolOfDestructuringAssignment := fun _ => none
    getPropertyOfTypeAt := fun _ _ => none }

/-- C9: the Tag Resolver is a total function and every failed resolution
step degrades to "no match": a missing resolved signature, a signature
with neither tags nor declaration, an empty tag collection, missing
declaration lists, a tag-less documentation answer, a symbol with
neither tags nor declarations, a declaration without documentation
comments, and an unresolved symbol each yield `none`. -/
theorem resolver_degrades_to_no_match (opts : List String) (tc : TypeChecker)
    (node : Tree) (fr : Frame) (rest : List Frame) :
    getSignatureUnwantedTags opts none = none
    ∧ (∀ sig : Signature, sig.jsDocTags = none → sig.declaration = none →
        getSignatureUnwantedTags opts (some sig) = none)
    ∧ findUnwantedTagsTag opts [] = none
    ∧ getUnwantedTagsFromDeclarations opts none = none
    ∧ (∀ s : Symbol, s.jsDocTags = some [] → getSymbolUnwantedTags opts s = none)
    ∧ (∀ s : Symbol, s.jsDocTags = none → s.declarations = none →
        getSymbolUnwantedTags opts s = none)
    ∧ (∀ d : Decl, d.jsDoc = [] → getUnwantedTagsFromDeclaration opts d = none)
    ∧ (sigPathResult opts tc fr rest = none →
        rawSymbol tc node fr rest = none →
        getUnwantedTags opts tc node fr rest = none) := by
  refine ⟨rfl, ?_, rfl, rfl, ?_, ?_, ?_, ?_⟩
  · intro sig h1 h2
    simp [getSignatureUnwantedTags, h1, h2]
  · intro s h
    simp [getSymbolUnwantedTags, h, findUnwantedTagsTag]
  · intro s h1 h2
    simp [getSymbolUnwantedTags, h1, h2, getUnwantedTagsFromDeclarations]
  · intro d h
    simp [getUnwantedTagsFromDeclaration, h, findTagInComments]
  · intro h1 h2
    simp [getUnwantedTags, h1, symbolPathResult, resolveSymbol, h2]

/-- Witness for C9: with a checker that resolves nothing, the Resolver
answers "no match" on a concrete usage. -/
theorem resolver_degrades_to_no_match_witness :
    getUnwantedTags ["Bad"] tcNothing plainUsage plainFrame [] = none :=
  (resolver_degrades_to_no_match ["Bad"] tcNothing plainUsage plainFrame
    []).2.2.2.2.2.2.2 rfl rfl

/-- A symbol tagged with the configured tag `Bad` and text `tag text`. -/
def symTagged : Symbol :=
  { aliasFlag := false
    jsDocTags := some [{ name := "Bad", text := some "tag text" }]
    declarations := none }

/-- A checker resolving no signature and mapping every location to
`symTagged`. -/
def tcTagged : TypeChecker :=
  { getResolvedSignature := fun _ => none
    getSymbolAtLocation := fun _ => some symTagged
    getAliasedSymbol := id
    getPropertySymbolOfDestructuringAssignment := fun _ => none
    getPropertyOfTypeAt := fun _ _ => none }

/-- C1: visiting an identifier emits a failure at that identifier's
position if and only if it is not classified as a declaration site and
the Tag Resolver returns a match — exactly one failure, whose message
embeds the matched tag's text through `FAILURE_STRING`; for an
identifier classified as a declaration site the Resolver is never
invoked and nothing is emitted. -/
theorem walk_identifier_report_iff (opts : List String) (tc : TypeChecker)
    (node : Tree) (fr : Frame) (rest : List Frame)
    (hid : node.kind = SyntaxKind.identifier) :
    (isDeclaration fr rest = true →
      cbFailures opts tc node fr rest = [] ∧ cbResolved node fr rest = [])
    ∧ (isDeclaration fr rest = false →
        cbResolved node fr rest = [node]
        ∧ (∀ t : String, getUnwantedTags opts tc node fr rest = some t →
            cbFailures opts tc node fr rest =
              [⟨node.pos, FAILURE_STRING node.text t⟩])
        ∧ (getUnwantedTags opts tc node fr rest = none →
            cbFailures opts tc node fr rest = [])) := by
  rcases node with ⟨d, cs⟩
  have hk : d.kind = SyntaxKind.identifier := hid
  constructor
  · intro hd
    simp [cbFailures, cbResolved, hk, hd]
  · intro hd
    refine ⟨?_, ?_, ?_⟩
    · simp [cbResolved, hk, hd]
    · intro t ht
      simp [cbFailures, hk, hd, ht, Tree.pos, Tree.text, Tree.data]
    · intro ht
      simp [cbFailures, hk, hd, ht]

/-- Witness for C1: a concrete non-declaration identifier usage with a
matching tag produces exactly its one failure and one resolver
invocation. -/
theorem walk_identifier_report_iff_witness :
    cbFailures ["Bad"] tcTagged plainUsage plainFrame []
      = [⟨21, FAILURE_STRING "u" "tag text"⟩]
    ∧ cbResolved plainUsage plainFrame [] = [plainUsage] := by
  have h := (walk_identifier_report_iff ["Bad"] tcTagged plainUsage plainFrame
    [] rfl).2 rfl
  exact ⟨h.2.1 "tag text" rfl, h.1⟩

/-- C8: the walker does not descend into import declarations,
import-equals declarations, export declarations or export assignments:
such a node's entire subtree contributes no failure and no resolver
invocation. -/
theorem import_export_subtree_pruned (opts : List String) (tc : TypeChecker)
    (node : Tree) (fr : Frame) (rest : List Frame)
    (h : prunedKind node.kind = true) :
    cbFailures opts tc node fr rest = [] ∧ cbResolved node fr rest = [] := by
  rcases node with ⟨⟨k, tx, p, r⟩, cs⟩
  cases k <;> simp_all [prunedKind, Tree.kind, Tree.data, cbFailures, cbResolved]

/-- An import declaration whose subtree holds an identifier that the
checker would otherwise flag. -/
def importHidden : Tree :=
  Tree.mk ⟨SyntaxKind.importDeclaration, "", 30, false⟩
    [(Slot.otherSlot, identNode "hidden" 31)]

/-- A source file whose only child is `importHidden`. -/
def fileWithImport : Tree :=
  Tree.mk ⟨SyntaxKind.sourceFile, "", 0, false⟩ [(Slot.otherSlot, importHidden)]

/-- The frame of `importHidden` inside `fileWithImport`. -/
def importFrame : Frame := (Slot.otherSlot, fileWithImport)

/-- Witness for C8: the flaggable identifier inside a concrete import
declaration is neither reported nor even resolved. -/
theorem import_export_subtree_pruned_witness :
    cbFailures ["Bad"] tcTagged importHidden importFrame [] = []
    ∧ cbResolved importHidden importFrame [] = [] :=
  import_export_subtree_pruned ["Bad"] tcTagged importHidden importFrame [] rfl

mutual

/-- With an empty configured tag list no visit emits a failure. -/
theorem cbFailures_nil_opts (tc : TypeChecker) :
    ∀ (t : Tree) (fr : Frame) (rest : List Frame),
      cbFailures [] tc t fr rest = []
  | Tree.mk d cs, fr, rest => by
      by_cases hk : d.kind = SyntaxKind.identifier
      · simp [cbFailures, hk, getUnwantedTags_nil_opts]
      · by_cases hp : prunedKind d.kind = true
        · simp [cbFailures, hk, hp]
        · simp [cbFailures, hk, hp,
            cbFailuresChildren_nil_opts tc cs (Tree.mk d cs) (fr :: rest)]

/-- With an empty configured tag list no child list contributes a
failure. -/
theorem cbFailuresChildren_nil_opts (tc : TypeChecker) :
    ∀ (cs : List (Slot × Tree)) (p : Tree) (ctx : List Frame),
      cbFailuresChildren [] tc cs p ctx = []
  | [], _, _ => rfl
  | (s, c) :: cs, p, ctx => by
      simp [cbFailuresChildren, cbFailures_nil_opts tc c (s, p) ctx,
        cbFailuresChildren_nil_opts tc cs p ctx]

end

/-- C10: a rule-argument array with fewer than two elements parses to an
empty tag list (only the element at index 1 feeds the configured set),
and with that empty tag list the traversal emits zero failures for
every source file and every checker. -/
theorem empty_tag_list_no_failures (args : List RuleArg) (tc : TypeChecker)
    (file : Tree) (h : args.length < 2) :
    parseOptions args = [] ∧ walk (parseOptions args) tc file = [] := by
  have h1 : args[1]? = none := List.getElem?_eq_none (by omega)
  have hp : parseOptions args = [] := by simp [parseOptions, h1]
  refine ⟨hp, ?_⟩
  rw [hp]
  exact cbFailuresChildren_nil_opts tc file.children file []

/-- A source file whose only child is the flaggable usage
`plainUsage`. -/
def fileWithUsage : Tree :=
  Tree.mk ⟨SyntaxKind.sourceFile, "", 0, false⟩ [(Slot.otherSlot, plainUsage)]

/-- Witness for C10: a one-element argument array yields no tags, and the
walk over a file containing an otherwise-flaggable usage reports
nothing. -/
theorem empty_tag_list_no_failures_witness :
    parseOptions [RuleArg.str "true"] = []
    ∧ walk (parseOptions [RuleArg.str "true"]) tcTagged fileWithUsage = [] :=
  empty_tag_list_no_failures [RuleArg.str "true"] tcTagged fileWithUsage
    (by decide)

end CheckForTag
